import Mathlib

/-!
Verification of the Catch Zone game engine (`src/js/gameEngine.js`).

The engine is shallowly embedded: JavaScript numbers that only ever hold
integers (`score`, `level`, `timeLimit`, `timeLeft`, `frameCount`,
`spawnRate`, `basketPos`, `lane`) become `Int`/`Nat`; coordinate and speed
values (`x`, `y`, `speed`, canvas dimensions) become `ℚ`, the exact-field
semantics of the JavaScript float arithmetic used here (additions and
comparisons of small values, where the two agree).  `Math.random()` draws
are passed in explicitly as a `SpawnRand` oracle.  The `onScoreChange` /
`onGameEnd` callback invocations are modelled as a list of emitted
`GameEvent`s returned by each operation (in the source a notification is
delivered only when a callback is registered; registration does not affect
engine state).  The `draw` method only issues canvas primitives and
mutates no engine state, so it is omitted.  The 1-second `setInterval`
countdown callback is embedded as `timerTick`; `clearInterval` is modelled
by the fact that a cleared interval is simply never invoked again, together
with the `isGameActive` guard inside the callback.
-/

namespace CatchZone

/-- Item kind: `'apple'` or `'bomb'` in the source. -/
inductive ItemType where
  | apple
  | bomb
deriving DecidableEq, Repr

/-- A falling item, as pushed by `spawnItem`:
`{ x, y, lane, type, speed, active }`. -/
structure Item where
  x : ℚ
  y : ℚ
  lane : Nat
  type : ItemType
  speed : ℚ
  active : Bool
deriving DecidableEq, Repr

/-- A notification delivered through one of the two callback slots of the
engine: `onScoreChange(score, level)` or `onGameEnd(score, level)`. -/
inductive GameEvent where
  | scoreChange (score level : Int)
  | gameEnd (score level : Int)
deriving DecidableEq, Repr

/-- The `config` argument of `start`.  `timeLimit := none` models a config
object without a `timeLimit` property. -/
structure Config where
  timeLimit : Option Int := none

/-- The mutable state of a `GameEngine` instance (the fields assigned in
the constructor of `class GameEngine`). -/
structure GameEngine where
  score : Int
  level : Int
  timeLimit : Int
  timeLeft : Int
  isGameActive : Bool
  basketPos : Nat
  items : List Item
  lanes : List ℚ
  spawnRate : Int
  frameCount : Int
deriving DecidableEq, Repr

namespace GameEngine

/-- `new GameEngine()`: the constructor's initial state. -/
def new : GameEngine :=
  { score := 0
    level := 1
    timeLimit := 60
    timeLeft := 60
    isGameActive := false
    basketPos := 1
    items := []
    lanes := [0.16, 0.5, 0.84]
    spawnRate := 60
    frameCount := 0 }

/-- `start(config)`.  `config.timeLimit || 60` evaluates to `60` when the
property is absent or `0` (falsy), and to the given value otherwise.
The timer (re)start is modelled by `timerTick` below being applicable to
the resulting state. -/
def start (config : Config) (g : GameEngine) : GameEngine :=
  let tl : Int :=
    match config.timeLimit with
    | none => 60
    | some t => if t = 0 then 60 else t
  { g with
    isGameActive := true
    score := 0
    level := 1
    timeLimit := tl
    timeLeft := tl
    items := []
    basketPos := 1
    frameCount := 0 }

/-- `stop()`: clears the interval, marks the game inactive, and invokes
`onGameEnd(this.score, this.level)` when a callback is registered. -/
def stop (g : GameEngine) : GameEngine × List GameEvent :=
  ({ g with isGameActive := false }, [GameEvent.gameEnd g.score g.level])

/-- One firing of the 1000 ms `setInterval` callback installed by `start`:
decrement `timeLeft` while active and call `stop` at `timeLeft <= 0`. -/
def timerTick (g : GameEngine) : GameEngine × List GameEvent :=
  if g.isGameActive = true then
    let g1 := { g with timeLeft := g.timeLeft - 1 }
    if g1.timeLeft ≤ 0 then stop g1 else (g1, [])
  else (g, [])

/-- `handleCollision(item)`: deactivate the item, apply the score delta
(`+10` apple, `-50` bomb), recompute the level as
`1 + Math.floor(score / 300)` (floor division, `Int.fdiv`), and invoke
`onScoreChange(score, level)`. -/
def handleCollision (item : Item) (g : GameEngine) :
    Item × GameEngine × List GameEvent :=
  let item1 := { item with active := false }
  let score :=
    if item1.type = ItemType.apple then g.score + 10
    else if item1.type = ItemType.bomb then g.score - 50
    else g.score
  let newLevel := 1 + Int.fdiv score 300
  let level := if newLevel ≠ g.level then newLevel else g.level
  (item1, { g with score := score, level := level },
    [GameEvent.scoreChange score level])

/-- The body of the `for (let item of this.items)` loop in `updateItems`,
for one item: skip inactive items, advance `y` by `speed`, run the catch
check against the band `basketY ± 20` (with `basketY = 0.85 * h`) and the
basket lane, then deactivate the item if it left the field (`y > h`). -/
def processItem (canvasHeight : ℚ) (item : Item) (g : GameEngine) :
    Item × GameEngine × List GameEvent :=
  if item.active = false then (item, g, [])
  else
    let moved := { item with y := item.y + item.speed }
    let basketY := canvasHeight * 0.85
    let step :=
      if basketY - 20 ≤ moved.y ∧ moved.y ≤ basketY + 20 then
        if moved.lane = g.basketPos then handleCollision moved g
        else (moved, g, ([] : List GameEvent))
      else (moved, g, ([] : List GameEvent))
    let item2 := if step.1.y > canvasHeight then { step.1 with active := false } else step.1
    (item2, step.2.1, step.2.2)

/-- The loop of `updateItems` over the item list, threading the engine
state and concatenating emitted events in traversal (spawn) order. -/
def updateItemsLoop (canvasHeight : ℚ) :
    List Item → GameEngine → List Item × GameEngine × List GameEvent
  | [], g => ([], g, [])
  | item :: rest, g =>
    let p := processItem canvasHeight item g
    let q := updateItemsLoop canvasHeight rest p.2.1
    (p.1 :: q.1, q.2.1, p.2.2 ++ q.2.2)

/-- `updateItems(canvasHeight, canvasWidth)`: run the per-item loop, then
`this.items = this.items.filter(item => item.active)`. -/
def updateItems (canvasHeight : ℚ) (g : GameEngine) :
    GameEngine × List GameEvent :=
  let r := updateItemsLoop canvasHeight g.items g
  ({ r.2.1 with items := r.1.filter (fun item => item.active) }, r.2.2)

/-- The three `Math.random()` draws made by `spawnItem`:
`Math.floor(Math.random() * 3)` for the lane, and two uniform draws in
`[0, 1)` for the kind and the speed jitter. -/
structure SpawnRand where
  laneIndex : Fin 3
  typeRand : ℚ
  speedRand : ℚ

/-- `spawnItem(canvasWidth)`: push a new item at `y = -30` on a random
lane, a bomb with probability `0.2 + level * 0.05`, falling at
`2 + level * 0.5 + Math.random() * 1`. -/
def spawnItem (canvasWidth : ℚ) (r : SpawnRand) (g : GameEngine) : GameEngine :=
  let laneIndex := r.laneIndex.val
  let x := g.lanes.getD laneIndex 0 * canvasWidth
  let bombChance : ℚ := 0.2 + (g.level : ℚ) * 0.05
  let t := if r.typeRand < bombChance then ItemType.bomb else ItemType.apple
  let speed : ℚ := 2 + (g.level : ℚ) * 0.5 + r.speedRand * 1
  { g with
    items := g.items ++
      [{ x := x, y := -30, lane := laneIndex, type := t, speed := speed, active := true }] }

/-- `updateAndDraw(ctx, canvasWidth, canvasHeight)`: the per-frame tick.
No-op while `!isGameActive`; otherwise increment `frameCount`, spawn when
`frameCount % Math.max(20, spawnRate - level * 5) === 0`, then advance and
resolve the items.  The trailing `draw` call issues canvas primitives only
and is omitted. -/
def updateAndDraw (canvasWidth canvasHeight : ℚ) (r : SpawnRand)
    (g : GameEngine) : GameEngine × List GameEvent :=
  if g.isGameActive = false then (g, [])
  else
    let g1 := { g with frameCount := g.frameCount + 1 }
    let currentSpawnRate := max 20 (g1.spawnRate - g1.level * 5)
    let g2 :=
      if g1.frameCount % currentSpawnRate = 0 then spawnItem canvasWidth r g1 else g1
    updateItems canvasHeight g2

/-- `setBasketPose(poseLabel)`: map the recognized Korean labels
(left / front / right) to lanes 0 / 1 / 2; any other label is ignored.
There is no `isGameActive` guard in this method. -/
def setBasketPose (poseLabel : String) (g : GameEngine) : GameEngine :=
  if poseLabel = "왼쪽" then { g with basketPos := 0 }
  else if poseLabel = "정면" then { g with basketPos := 1 }
  else if poseLabel = "오른쪽" then { g with basketPos := 2 }
  else g

/-- The engine states reachable from a freshly constructed engine through
the public operations and the timer callback. -/
inductive Reachable : GameEngine → Prop where
  | new : Reachable GameEngine.new
  | ofStart (c : Config) (g : GameEngine) :
      Reachable g → Reachable (start c g)
  | ofStop (g : GameEngine) :
      Reachable g → Reachable (stop g).1
  | ofTick (w h : ℚ) (r : SpawnRand) (g : GameEngine) :
      Reachable g → Reachable (updateAndDraw w h r g).1
  | ofPose (lbl : String) (g : GameEngine) :
      Reachable g → Reachable (setBasketPose lbl g)
  | ofTimer (g : GameEngine) :
      Reachable g → Reachable (timerTick g).1

end GameEngine

open GameEngine

/-- A concrete harmful (bomb) item sitting on lane 1. -/
def bombItem : Item :=
  { x := 0, y := 0, lane := 1, type := ItemType.bomb, speed := 1, active := true }

/-- A concrete beneficial (apple) item on lane 0. -/
def appleItem : Item :=
  { x := 0, y := 0, lane := 0, type := ItemType.apple, speed := 1, active := true }

/-- A running engine that has accumulated 20 points. -/
def score20State : GameEngine :=
  { GameEngine.new with score := 20, isGameActive := true }

/-- An item one step away from leaving a 400-pixel field uncaught:
`y = 395`, `speed = 10`, lane 0 while the basket is on lane 1. -/
def missItem : Item :=
  { x := 0, y := 395, lane := 0, type := ItemType.apple, speed := 10, active := true }

/-- A running engine whose only item is `missItem`. -/
def missState : GameEngine :=
  { GameEngine.new with isGameActive := true, items := [missItem] }

/-- An item entering the catch band of a 400-pixel field on the basket's
lane: next position `335 ∈ [320, 360]`, lane 1. -/
def catchItem : Item :=
  { x := 0, y := 330, lane := 1, type := ItemType.apple, speed := 5, active := true }

/-- A fixed random oracle (lane 0, both uniform draws 0). -/
def r0 : SpawnRand := ⟨0, 0, 0⟩

/-- An empty `start` configuration (no `timeLimit` property). -/
def cfg0 : Config := {}

/-- An item far from the catch band of a 400-pixel field. -/
def tickItem : Item :=
  { x := 0, y := 100, lane := 0, type := ItemType.apple, speed := 5, active := true }

/-- A running engine whose only item is `tickItem`. -/
def tickState : GameEngine :=
  { GameEngine.new with isGameActive := true, items := [tickItem] }

/-- Where `tickItem` lands after one tick of `tickState`. -/
def tickItemMoved : Item :=
  { x := 0, y := 105, lane := 0, type := ItemType.apple, speed := 5, active := true }

namespace GameEngine

theorem ifNeSelf (a b : Int) : (if a ≠ b then a else b) = a := by
  split_ifs with h
  · rfl
  · push_neg at h
    exact h.symm

theorem handleCollision_fst (it : Item) (g : GameEngine) :
    (handleCollision it g).1 = { it with active := false } := rfl

theorem handleCollision_events (it : Item) (g : GameEngine) :
    (handleCollision it g).2.2 =
      [GameEvent.scoreChange (handleCollision it g).2.1.score
        (handleCollision it g).2.1.level] := rfl

theorem handleCollision_preserves (it : Item) (g : GameEngine) :
    (handleCollision it g).2.1.basketPos = g.basketPos ∧
    (handleCollision it g).2.1.lanes = g.lanes ∧
    (handleCollision it g).2.1.spawnRate = g.spawnRate ∧
    (handleCollision it g).2.1.isGameActive = g.isGameActive ∧
    (handleCollision it g).2.1.items = g.items ∧
    (handleCollision it g).2.1.frameCount = g.frameCount :=
  ⟨rfl, rfl, rfl, rfl, rfl, rfl⟩

theorem processItem_inactive (hgt : ℚ) (it : Item) (g : GameEngine)
    (h : it.active = false) : processItem hgt it g = (it, g, []) := by
  unfold processItem
  rw [if_pos h]

theorem processItem_no_catch (hgt : ℚ) (it : Item) (g : GameEngine)
    (hact : it.active = true)
    (hnc : ¬(hgt * 0.85 - 20 ≤ it.y + it.speed ∧
             it.y + it.speed ≤ hgt * 0.85 + 20) ∨
           it.lane ≠ g.basketPos) :
    processItem hgt it g =
      ((if hgt < it.y + it.speed
        then { it with y := it.y + it.speed, active := false }
        else { it with y := it.y + it.speed }), g, []) := by
  unfold processItem
  rw [if_neg (by simp [hact])]
  dsimp only
  rcases hnc with h | h
  · rw [if_neg h]
  · by_cases hb : hgt * 0.85 - 20 ≤ it.y + it.speed ∧ it.y + it.speed ≤ hgt * 0.85 + 20
    · rw [if_pos hb, if_neg h]
    · rw [if_neg hb]

theorem processItem_caught (hgt : ℚ) (it : Item) (g : GameEngine)
    (hact : it.active = true)
    (hband : hgt * 0.85 - 20 ≤ it.y + it.speed ∧ it.y + it.speed ≤ hgt * 0.85 + 20)
    (hlane : it.lane = g.basketPos) :
    processItem hgt it g =
      ({ it with y := it.y + it.speed, active := false },
        (handleCollision { it with y := it.y + it.speed } g).2.1,
        (handleCollision { it with y := it.y + it.speed } g).2.2) := by
  unfold processItem
  rw [if_neg (by simp [hact])]
  dsimp only
  rw [if_pos hband, if_pos hlane, handleCollision_fst]
  split_ifs <;> rfl

theorem processItem_preserves (hgt : ℚ) (it : Item) (g : GameEngine) :
    (processItem hgt it g).2.1.basketPos = g.basketPos ∧
    (processItem hgt it g).2.1.lanes = g.lanes ∧
    (processItem hgt it g).2.1.spawnRate = g.spawnRate := by
  unfold processItem
  dsimp only
  split_ifs <;> exact ⟨rfl, rfl, rfl⟩

theorem processItem_active_or_le (hgt : ℚ) (it : Item) (g : GameEngine) :
    (processItem hgt it g).1.active = false ∨ (processItem hgt it g).1.y ≤ hgt := by
  unfold processItem
  dsimp only
  split_ifs <;>
    first
      | (left; assumption)
      | (left; rfl)
      | (right; exact not_lt.mp (by assumption))

theorem updateItemsLoop_preserves (hgt : ℚ) :
    ∀ (l : List Item) (g : GameEngine),
      (updateItemsLoop hgt l g).2.1.basketPos = g.basketPos ∧
      (updateItemsLoop hgt l g).2.1.lanes = g.lanes ∧
      (updateItemsLoop hgt l g).2.1.spawnRate = g.spawnRate
  | [], _ => ⟨rfl, rfl, rfl⟩
  | it :: rest, g => by
      have hp := processItem_preserves hgt it g
      have hr := updateItemsLoop_preserves hgt rest (processItem hgt it g).2.1
      unfold updateItemsLoop
      dsimp only
      exact ⟨hr.1.trans hp.1, hr.2.1.trans hp.2.1, hr.2.2.trans hp.2.2⟩

theorem updateItemsLoop_active_le (hgt : ℚ) :
    ∀ (l : List Item) (g : GameEngine) (x : Item),
      x ∈ (updateItemsLoop hgt l g).1 → x.active = true → x.y ≤ hgt
  | [], _, x, hx, _ => absurd hx (List.not_mem_nil x)
  | it :: rest, g, x, hx, hxa => by
      unfold updateItemsLoop at hx
      dsimp only at hx
      rcases List.mem_cons.mp hx with h | h
      · subst h
        rcases processItem_active_or_le hgt it g with hf | hle
        · rw [hxa] at hf
          exact absurd hf (by simp)
        · exact hle
      · exact updateItemsLoop_active_le hgt rest (processItem hgt it g).2.1 x h hxa

theorem updateItems_preserves (hgt : ℚ) (g : GameEngine) :
    (updateItems hgt g).1.basketPos = g.basketPos ∧
    (updateItems hgt g).1.lanes = g.lanes ∧
    (updateItems hgt g).1.spawnRate = g.spawnRate := by
  unfold updateItems
  dsimp only
  exact updateItemsLoop_preserves hgt g.items g

theorem updateItems_mem_active (hgt : ℚ) (g : GameEngine) :
    ∀ x ∈ (updateItems hgt g).1.items, x.active = true := by
  intro x hx
  unfold updateItems at hx
  dsimp only at hx
  rw [List.mem_filter] at hx
  simpa using hx.2

theorem updateItems_mem_le (hgt : ℚ) (g : GameEngine) :
    ∀ x ∈ (updateItems hgt g).1.items, x.y ≤ hgt := by
  intro x hx
  have hxa := updateItems_mem_active hgt g x hx
  unfold updateItems at hx
  dsimp only at hx
  rw [List.mem_filter] at hx
  exact updateItemsLoop_active_le hgt g.items g x hx.1 hxa

theorem spawnItem_preserves (w : ℚ) (r : SpawnRand) (g : GameEngine) :
    (spawnItem w r g).basketPos = g.basketPos ∧
    (spawnItem w r g).lanes = g.lanes ∧
    (spawnItem w r g).spawnRate = g.spawnRate ∧
    (spawnItem w r g).isGameActive = g.isGameActive :=
  ⟨rfl, rfl, rfl, rfl⟩

theorem updateAndDraw_preserves (w hgt : ℚ) (r : SpawnRand) (g : GameEngine) :
    (updateAndDraw w hgt r g).1.basketPos = g.basketPos ∧
    (updateAndDraw w hgt r g).1.lanes = g.lanes ∧
    (updateAndDraw w hgt r g).1.spawnRate = g.spawnRate := by
  unfold updateAndDraw
  dsimp only
  split_ifs with h1 h2
  · exact ⟨rfl, rfl, rfl⟩
  · exact updateItems_preserves hgt _
  · exact updateItems_preserves hgt _

theorem setBasketPose_preserves (lbl : String) (g : GameEngine) :
    (setBasketPose lbl g).lanes = g.lanes ∧
    (setBasketPose lbl g).spawnRate = g.spawnRate := by
  unfold setBasketPose
  split_ifs <;> exact ⟨rfl, rfl⟩

theorem timerTick_preserves (g : GameEngine) :
    (timerTick g).1.basketPos = g.basketPos ∧
    (timerTick g).1.lanes = g.lanes ∧
    (timerTick g).1.spawnRate = g.spawnRate := by
  unfold timerTick stop
  dsimp only
  split_ifs <;> exact ⟨rfl, rfl, rfl⟩

theorem reachable_consts {g : GameEngine} (h : Reachable g) :
    g.spawnRate = 60 ∧ g.lanes = [0.16, 0.5, 0.84] := by
  induction h with
  | new => exact ⟨rfl, rfl⟩
  | ofStart c g _ ih => exact ⟨ih.1, ih.2⟩
  | ofStop g _ ih => exact ⟨ih.1, ih.2⟩
  | ofTick w hgt r g _ ih =>
      have hp := updateAndDraw_preserves w hgt r g
      exact ⟨hp.2.2.trans ih.1, hp.2.1.trans ih.2⟩
  | ofPose lbl g _ ih =>
      have hp := setBasketPose_preserves lbl g
      exact ⟨hp.2.trans ih.1, hp.1.trans ih.2⟩
  | ofTimer g _ ih =>
      have hp := timerTick_preserves g
      exact ⟨hp.2.2.trans ih.1, hp.2.1.trans ih.2⟩

end GameEngine

/-- C1, counterexample: a harmful catch at `score = 20` drops the score to
`-30` and the code then sets `level = 1 + Math.floor(-30 / 300) = 0`, so
the level reported through `onScoreChange` is `0` — below 1 and below its
prior value — contradicting the claimed
`newLevel = max(previousLevel, 1 + floor(max(score, 0) / 300))`, which
would have kept it at `1`. -/
theorem c1Counterexample :
    score20State.level = 1 ∧
    (handleCollision bombItem score20State).2.1.score = -30 ∧
    (handleCollision bombItem score20State).2.1.level = 0 ∧
    ¬(1 ≤ (handleCollision bombItem score20State).2.1.level) ∧
    (handleCollision bombItem score20State).2.2 =
      [GameEvent.scoreChange (-30) 0] ∧
    (0 : Int) ≠ max score20State.level (1 + Int.fdiv (max (-30) 0) 300) := by
  decide

/-- C1, amended: after each catch the reported level is recomputed purely
from the new raw score as `1 + Math.floor(score / 300)` — with no
`max(score, 0)` and no monotonic floor at the previous level — and the
`onScoreChange` notification reports exactly that score and level.  The
level can therefore decrease and drop below 1 when the score goes
negative. -/
theorem c1LevelFormula (it : Item) (g : GameEngine) :
    (handleCollision it g).2.1.level =
      1 + Int.fdiv (handleCollision it g).2.1.score 300 ∧
    (handleCollision it g).2.2 =
      [GameEvent.scoreChange (handleCollision it g).2.1.score
        (handleCollision it g).2.1.level] := by
  constructor
  · unfold handleCollision
    dsimp only
    rw [ifNeSelf]
  · exact handleCollision_events it g

/-- C2, counterexample: a second `stop()` call on an already stopped
engine invokes `onGameEnd` again — `stop` reruns its notification on
every call, so `onGameEnd` does not fire exactly once per session. -/
theorem c2Counterexample :
    (stop GameEngine.new).1.isGameActive = false ∧
    (stop (stop GameEngine.new).1).2 = [GameEvent.gameEnd 0 1] ∧
    (stop (stop GameEngine.new).1).2 ≠ [] := by
  decide

/-- C2, amended: every `stop()` call marks the engine inactive and fires
`onGameEnd(score, level)`; `stop` is idempotent on the engine state but
not on the notification — a second call fires `onGameEnd` again.  After a
`stop`, the timer callback is a no-op (and its interval is cleared), so no
further clock-driven `onGameEnd` can fire; a time-out fires it once,
through the single `stop()` call made by the timer callback. -/
theorem c2StopBehavior (g : GameEngine) :
    (stop g).2 = [GameEvent.gameEnd g.score g.level] ∧
    (stop g).1.isGameActive = false ∧
    (stop (stop g).1).1 = (stop g).1 ∧
    (stop (stop g).1).2 = [GameEvent.gameEnd g.score g.level] ∧
    timerTick (stop g).1 = ((stop g).1, []) :=
  ⟨rfl, rfl, rfl, rfl, rfl⟩

/-- C3, counterexample: in a tick where the only item falls past the
bottom of a 400-pixel field uncaught (`y` moves from 395 to 405), the item
is deactivated and removed and score and level are untouched, but the
event list of the tick is empty — no `missed(item)` notification exists in
the engine (its only callbacks are `onScoreChange` and `onGameEnd`), so no
missed event is reported, let alone exactly once. -/
theorem c3Counterexample :
    missState.items = [missItem] ∧
    (updateItems 400 missState).2 = [] ∧
    (updateItems 400 missState).1.items = [] ∧
    (updateItems 400 missState).1.score = missState.score ∧
    (updateItems 400 missState).1.level = missState.level := by
  refine ⟨rfl, ?_, ?_, ?_, ?_⟩ <;>
    norm_num [updateItems, updateItemsLoop, processItem, missState, missItem,
      GameEngine.new, List.filter]

/-- C3, amended: an active item whose `verticalPosition` exceeds
`fieldHeight` without being caught in that tick is deactivated and removed
from the item list by the end of the tick, and score and level are
unchanged — but no event of any kind is emitted for the miss (the engine
has no miss notification). -/
theorem c3MissBehavior (hgt : ℚ) (it : Item) (g : GameEngine)
    (hitems : g.items = [it])
    (hact : it.active = true)
    (hoff : hgt < it.y + it.speed)
    (hnc : ¬(hgt * 0.85 - 20 ≤ it.y + it.speed ∧
             it.y + it.speed ≤ hgt * 0.85 + 20) ∨
           it.lane ≠ g.basketPos) :
    updateItems hgt g = ({ g with items := [] }, []) := by
  have hpi : processItem hgt it g =
      ({ it with y := it.y + it.speed, active := false }, g, []) := by
    rw [processItem_no_catch hgt it g hact hnc, if_pos hoff]
  unfold updateItems
  rw [hitems]
  unfold updateItemsLoop
  dsimp only
  rw [hpi]
  unfold updateItemsLoop
  simp [List.filter]

/-- C3, witness for the amended theorem at the concrete miss scenario. -/
theorem c3Witness :
    updateItems 400 missState = ({ missState with items := [] }, []) := by
  refine c3MissBehavior 400 missItem missState rfl rfl ?_ ?_
  · norm_num [missItem]
  · right
    norm_num [missItem, missState, GameEngine.new]

/-- C4, counterexample: `setBasketPose` has no `isGameActive` guard — on a
freshly constructed (inactive) engine, the recognized label for "left"
moves the basket from lane 1 to lane 0, so a lane-selection call while the
session is not active is not a no-op. -/
theorem c4Counterexample :
    GameEngine.new.isGameActive = false ∧
    GameEngine.new.basketPos = 1 ∧
    (setBasketPose "왼쪽" GameEngine.new).basketPos = 0 ∧
    setBasketPose "왼쪽" GameEngine.new ≠ GameEngine.new := by
  decide

/-- C4, amended: `updateAndDraw` while `!isGameActive` is a no-op (state
unchanged, no events, no error); `setBasketPose`, however, is not guarded
by activity: a recognized label (left / front / right) always moves the
basket to lane 0 / 1 / 2 even while inactive, and only unrecognized labels
are no-ops.  (Callers in `main.js` guard the call with
`gameEngine.isGameActive` themselves.) -/
theorem c4InactiveBehavior (w hgt : ℚ) (r : SpawnRand) (g : GameEngine)
    (lbl : String) :
    (g.isGameActive = false → updateAndDraw w hgt r g = (g, [])) ∧
    (setBasketPose "왼쪽" g).basketPos = 0 ∧
    (setBasketPose "정면" g).basketPos = 1 ∧
    (setBasketPose "오른쪽" g).basketPos = 2 ∧
    (lbl ≠ "왼쪽" → lbl ≠ "정면" → lbl ≠ "오른쪽" → setBasketPose lbl g = g) := by
  refine ⟨?_, ?_, ?_, ?_, ?_⟩
  · intro h
    unfold updateAndDraw
    rw [if_pos h]
  · unfold setBasketPose
    rw [if_pos rfl]
  · unfold setBasketPose
    rw [if_neg (by decide), if_pos rfl]
  · unfold setBasketPose
    rw [if_neg (by decide), if_neg (by decide), if_pos rfl]
  · intro h1 h2 h3
    unfold setBasketPose
    rw [if_neg h1, if_neg h2, if_neg h3]

/-- C4, witness: the tick no-op on the fresh (inactive) engine, and the
unrecognized-label no-op, via the amended theorem. -/
theorem c4Witness :
    updateAndDraw 400 400 r0 GameEngine.new = (GameEngine.new, []) ∧
    setBasketPose "기타" GameEngine.new = GameEngine.new :=
  ⟨(c4InactiveBehavior 400 400 r0 GameEngine.new "기타").1 rfl,
   (c4InactiveBehavior 400 400 r0 GameEngine.new "기타").2.2.2.2
     (by decide) (by decide) (by decide)⟩

/-- C5, confirmed: on an active tick the engine first increments
`frameCount` and then spawns exactly when the incremented `frameCount` is
divisible by `Math.max(20, 60 - level * 5)` (the `spawnRate` field is 60
in every reachable state and is never written); on all other ticks no
spawn is attempted, and the interval never drops below the floor of 20
frames. -/
theorem c5SpawnCadence (w hgt : ℚ) (r : SpawnRand) (g : GameEngine)
    (hreach : Reachable g) (hact : g.isGameActive = true) :
    (updateAndDraw w hgt r g =
      if (g.frameCount + 1) % max 20 (60 - g.level * 5) = 0 then
        updateItems hgt (spawnItem w r { g with frameCount := g.frameCount + 1 })
      else updateItems hgt { g with frameCount := g.frameCount + 1 }) ∧
    20 ≤ max 20 (60 - g.level * 5) := by
  have hsr : g.spawnRate = 60 := (reachable_consts hreach).1
  constructor
  · unfold updateAndDraw
    rw [if_neg (by simp [hact])]
    dsimp only
    rw [hsr, apply_ite (updateItems hgt)]
  · exact le_max_left _ _

/-- C5, witness: the cadence theorem applied to the reachable active state
obtained by `start` on a fresh engine. -/
theorem c5Witness :
    (start cfg0 GameEngine.new).isGameActive = true ∧
    20 ≤ max 20 (60 - (start cfg0 GameEngine.new).level * 5) :=
  ⟨rfl, (c5SpawnCadence 400 400 r0 (start cfg0 GameEngine.new)
      (Reachable.ofStart cfg0 GameEngine.new Reachable.new) rfl).2⟩

/-- C6, confirmed: for an active item, a tick emits a catch notification
exactly when the moved position lies in the band
`0.85 * fieldHeight ± 20` and the item's lane equals the basket lane; on a
catch the item's status becomes terminal (`active = false`) and exactly
the one `handleCollision` notification is emitted; each item yields at
most one catch event per tick, and after `updateItems` the live list holds
only still-active items (so a caught item is removed the same tick and can
never emit again); an item in the band whose lane does not match simply
keeps falling, still active, as long as it stays on the field. -/
theorem c6CatchZone (hgt : ℚ) (it : Item) (g : GameEngine)
    (hact : it.active = true) :
    ((processItem hgt it g).2.2 ≠ [] ↔
      (hgt * 0.85 - 20 ≤ it.y + it.speed ∧ it.y + it.speed ≤ hgt * 0.85 + 20 ∧
        it.lane = g.basketPos)) ∧
    ((hgt * 0.85 - 20 ≤ it.y + it.speed ∧ it.y + it.speed ≤ hgt * 0.85 + 20 ∧
        it.lane = g.basketPos) →
      (processItem hgt it g).1.active = false ∧
      (processItem hgt it g).2.2 =
        [GameEvent.scoreChange
          (handleCollision { it with y := it.y + it.speed } g).2.1.score
          (handleCollision { it with y := it.y + it.speed } g).2.1.level]) ∧
    (processItem hgt it g).2.2.length ≤ 1 ∧
    ((hgt * 0.85 - 20 ≤ it.y + it.speed ∧ it.y + it.speed ≤ hgt * 0.85 + 20) →
      it.lane ≠ g.basketPos → it.y + it.speed ≤ hgt →
      processItem hgt it g = ({ it with y := it.y + it.speed }, g, [])) ∧
    (∀ x ∈ ((updateItems hgt g).1).items, x.active = true) := by
  refine ⟨⟨?_, ?_⟩, ?_, ?_, ?_, updateItems_mem_active hgt g⟩
  · intro hne
    by_cases hb : hgt * 0.85 - 20 ≤ it.y + it.speed ∧ it.y + it.speed ≤ hgt * 0.85 + 20
    · by_cases hl : it.lane = g.basketPos
      · exact ⟨hb.1, hb.2, hl⟩
      · rw [processItem_no_catch hgt it g hact (Or.inr hl)] at hne
        exact absurd rfl hne
    · rw [processItem_no_catch hgt it g hact (Or.inl hb)] at hne
      exact absurd rfl hne
  · rintro ⟨h1, h2, h3⟩
    rw [processItem_caught hgt it g hact ⟨h1, h2⟩ h3, handleCollision_events]
    simp
  · rintro ⟨h1, h2, h3⟩
    rw [processItem_caught hgt it g hact ⟨h1, h2⟩ h3]
    exact ⟨rfl, handleCollision_events _ _⟩
  · by_cases hb : hgt * 0.85 - 20 ≤ it.y + it.speed ∧ it.y + it.speed ≤ hgt * 0.85 + 20
    · by_cases hl : it.lane = g.basketPos
      · rw [processItem_caught hgt it g hact hb hl, handleCollision_events]
        simp
      · rw [processItem_no_catch hgt it g hact (Or.inr hl)]
        simp
    · rw [processItem_no_catch hgt it g hact (Or.inl hb)]
      simp
  · intro hb hl hle
    rw [processItem_no_catch hgt it g hact (Or.inr hl), if_neg (not_lt.mpr hle)]

/-- C6, witness: the concrete catch of `catchItem` (moved position 335 in
the band [320, 360] of a 400-pixel field, lane 1 = basket lane 1)
terminates the item and emits exactly the one collision notification. -/
theorem c6Witness :
    (processItem 400 catchItem GameEngine.new).1.active = false ∧
    (processItem 400 catchItem GameEngine.new).2.2 =
      [GameEvent.scoreChange
        (handleCollision { catchItem with y := catchItem.y + catchItem.speed }
          GameEngine.new).2.1.score
        (handleCollision { catchItem with y := catchItem.y + catchItem.speed }
          GameEngine.new).2.1.level] :=
  (c6CatchZone 400 catchItem GameEngine.new rfl).2.1
    (by norm_num [catchItem, GameEngine.new])

/-- C7, counterexample: `start({timeLimit: -5})` performs no validation
and raises no configuration error — it silently starts an active session
with `timeLeft = -5` (and a `timeLimit` of `0` is even replaced by the
default 60 by the falsy `config.timeLimit || 60`). -/
theorem c7Counterexample :
    (start { timeLimit := some (-5) } GameEngine.new).isGameActive = true ∧
    (start { timeLimit := some (-5) } GameEngine.new).timeLeft = -5 ∧
    (start { timeLimit := some 0 } GameEngine.new).timeLeft = 60 := by
  decide

/-- C7, amended: `start` accepts any configuration without error: an
absent or zero `timeLimit` (falsy) defaults to 60, any other value —
including a negative one — is installed verbatim and the session starts
active; with a negative duration the degenerate session runs until the
first timer tick, which ends it with `onGameEnd(0, 1)`. -/
theorem c7NoValidation (g : GameEngine) (t : Int) :
    (start { timeLimit := none } g).timeLeft = 60 ∧
    (start { timeLimit := some 0 } g).timeLeft = 60 ∧
    (t ≠ 0 → (start { timeLimit := some t } g).timeLeft = t) ∧
    (start { timeLimit := some t } g).isGameActive = true ∧
    (t < 0 →
      (timerTick (start { timeLimit := some t } g)).2 =
        [GameEvent.gameEnd 0 1] ∧
      (timerTick (start { timeLimit := some t } g)).1.isGameActive = false) := by
  refine ⟨rfl, rfl, ?_, rfl, ?_⟩
  · intro ht
    unfold start
    dsimp only
    rw [if_neg ht]
  · intro ht
    have hne : t ≠ 0 := ne_of_lt ht
    unfold timerTick start stop
    dsimp only
    rw [if_neg hne]
    rw [if_pos rfl, if_pos (by omega)]
    exact ⟨rfl, rfl⟩

/-- C7, witness: the amended theorem at `timeLimit = -7`. -/
theorem c7Witness :
    (start { timeLimit := some (-7) } GameEngine.new).timeLeft = -7 ∧
    (timerTick (start { timeLimit := some (-7) } GameEngine.new)).2 =
      [GameEvent.gameEnd 0 1] :=
  ⟨(c7NoValidation GameEngine.new (-7)).2.2.1 (by decide),
   ((c7NoValidation GameEngine.new (-7)).2.2.2.2 (by decide)).1⟩

/-- C8, confirmed: `handleCollision` adds exactly +10 to the score for a
beneficial (apple) catch and exactly −50 for a harmful (bomb) catch; the
score is an `Int` and goes negative (concretely, a bomb catch at score 0
yields −50); a tick in which an item is not caught (inactive, outside the
band, or on the wrong lane) leaves score and level unchanged, so misses
carry no score change. -/
theorem c8Scoring (it : Item) (g : GameEngine) (hgt : ℚ) :
    (it.type = ItemType.apple →
      (handleCollision it g).2.1.score = g.score + 10) ∧
    (it.type = ItemType.bomb →
      (handleCollision it g).2.1.score = g.score - 50) ∧
    (¬(it.active = true ∧
        hgt * 0.85 - 20 ≤ it.y + it.speed ∧ it.y + it.speed ≤ hgt * 0.85 + 20 ∧
        it.lane = g.basketPos) →
      (processItem hgt it g).2.1.score = g.score ∧
      (processItem hgt it g).2.1.level = g.level) ∧
    (handleCollision bombItem GameEngine.new).2.1.score = -50 ∧
    (handleCollision bombItem GameEngine.new).2.1.score < 0 := by
  refine ⟨?_, ?_, ?_, by decide, by decide⟩
  · intro h
    unfold handleCollision
    dsimp only
    rw [if_pos h]
  · intro h
    unfold handleCollision
    dsimp only
    rw [if_neg (by rw [h]; decide), if_pos h]
  · intro hnc
    by_cases hact : it.active = true
    · have hno : ¬(hgt * 0.85 - 20 ≤ it.y + it.speed ∧
          it.y + it.speed ≤ hgt * 0.85 + 20) ∨ it.lane ≠ g.basketPos := by
        by_cases hb : hgt * 0.85 - 20 ≤ it.y + it.speed ∧
            it.y + it.speed ≤ hgt * 0.85 + 20
        · right
          intro hl
          exact hnc ⟨hact, hb.1, hb.2, hl⟩
        · exact Or.inl hb
      rw [processItem_no_catch hgt it g hact hno]
      exact ⟨rfl, rfl⟩
    · have hf : it.active = false := by
        revert hact
        cases it.active <;> simp
      rw [processItem_inactive hgt it g hf]
      exact ⟨rfl, rfl⟩

/-- C8, witness: the +10 apple branch at a concrete state. -/
theorem c8Witness :
    (handleCollision appleItem GameEngine.new).2.1.score =
      GameEngine.new.score + 10 :=
  (c8Scoring appleItem GameEngine.new 400).1 rfl

/-- C9, confirmed: in every reachable engine state the basket lane is one
of 0, 1, 2 (it starts at 1, `start` resets it to 1, `setBasketPose` only
ever writes 0, 1 or 2, and no other operation touches it) and the `lanes`
array always has length 3, so `lanes[basketPos]` is an in-bounds lookup. -/
theorem c9BasketInvariant (g : GameEngine) (hreach : Reachable g) :
    g.basketPos < 3 ∧ g.lanes.length = 3 ∧ g.basketPos < g.lanes.length := by
  have key : g.basketPos < 3 ∧ g.lanes = [0.16, 0.5, 0.84] := by
    induction hreach with
    | new => exact ⟨by decide, rfl⟩
    | ofStart c g _ ih =>
        refine ⟨?_, ih.2⟩
        show (1 : Nat) < 3
        decide
    | ofStop g _ ih => exact ⟨ih.1, ih.2⟩
    | ofTick w hgt r g _ ih =>
        have hp := updateAndDraw_preserves w hgt r g
        constructor
        · rw [hp.1]; exact ih.1
        · rw [hp.2.1]; exact ih.2
    | ofPose lbl g _ ih =>
        unfold setBasketPose
        split_ifs
        · refine ⟨?_, ih.2⟩
          show (0 : Nat) < 3
          decide
        · refine ⟨?_, ih.2⟩
          show (1 : Nat) < 3
          decide
        · refine ⟨?_, ih.2⟩
          show (2 : Nat) < 3
          decide
        · exact ih
    | ofTimer g _ ih =>
        have hp := timerTick_preserves g
        constructor
        · rw [hp.1]; exact ih.1
        · rw [hp.2.1]; exact ih.2
  refine ⟨key.1, ?_, ?_⟩
  · rw [key.2]
    rfl
  · rw [key.2]
    exact key.1

/-- C9, witness: the invariant at the freshly constructed engine. -/
theorem c9Witness :
    GameEngine.new.basketPos < 3 ∧
    GameEngine.new.lanes.length = 3 ∧
    GameEngine.new.basketPos < GameEngine.new.lanes.length :=
  c9BasketInvariant GameEngine.new Reachable.new

/-- C10, confirmed: after a completed tick of an active session, every
item still in the live list is active (unresolved) and lies on the field
(`verticalPosition ≤ fieldHeight`): items caught or fallen off-screen
during the tick were deactivated and removed by the end-of-tick filter. -/
theorem c10ActiveItems (w hgt : ℚ) (r : SpawnRand) (g : GameEngine)
    (hact : g.isGameActive = true) :
    ∀ x ∈ ((updateAndDraw w hgt r g).1).items, x.active = true ∧ x.y ≤ hgt := by
  intro x hx
  unfold updateAndDraw at hx
  rw [if_neg (by simp [hact])] at hx
  dsimp only at hx
  exact ⟨updateItems_mem_active hgt _ x hx, updateItems_mem_le hgt _ x hx⟩

/-- C10, witness: one tick of `tickState` (no spawn since
`1 % 55 ≠ 0`) moves its single item from 100 to 105 and keeps it, and the
invariant applied to that concrete member gives activity and
on-field position. -/
theorem c10Witness : tickItemMoved.active = true ∧ tickItemMoved.y ≤ 400 :=
  c10ActiveItems 400 400 r0 tickState rfl tickItemMoved
    (by norm_num [updateAndDraw, updateItems, updateItemsLoop, processItem,
      tickState, tickItem, tickItemMoved, GameEngine.new, List.filter])

end CatchZone
